import Mathlib

/-!
Shallow embedding of `Henry_Task/easy_apply/find_linkedin_easy_apply.py`.

The script wires a handful of callback actions (credential loading, CSV
job store append/read, a login form fill, PDF resume reading, file upload)
into an external browser-automation agent loop.  External collaborators
(the browser, the PDF extractor, the filesystem, the agent runtime) are
modelled as explicit inputs: a browser is a record of the outcomes of the
awaited calls the action performs, the job store file is an
`Option String` (`none` = the file does not exist, `some c` = contents
`c`), and a PDF is the list of its pages' extraction results
(`Option String`, `none` when a page yields no extractable text).
-/

namespace LinkedInEasyApply

/-- Wrapper mirroring pydantic's `SecretStr`: the secret is held but kept
out of reprs/logs.  Only its construction matters here. -/
structure SecretStr where
  secret : String
  deriving DecidableEq

/-- The result record every action returns (`browser_use.ActionResult`):
optional extracted content, optional error message, and the
`include_in_memory` flag, which defaults to `false` in the library and is
only set explicitly by actions that pass `include_in_memory=True`. -/
structure ActionResult where
  extracted_content : Option String
  error : Option String
  include_in_memory : Bool
  deriving DecidableEq

/-- Logging levels used by the script (`logger.debug/info/error`). -/
inductive LogLevel where
  | debug : LogLevel
  | info : LogLevel
  | fatal : LogLevel
  deriving DecidableEq

/-- A Python exception, abstracted to the text `str(e)` produces. -/
structure Exn where
  msg : String
  deriving DecidableEq

/-! ## Process environment and startup (module top level and `main`) -/

/-- The part of the process environment the script consults: the two
LinkedIn credential variables (`os.getenv` returns `none` when unset) and
whether the fixed CV file exists in the working directory. -/
structure ProcessEnv where
  linkedin_email : Option String
  linkedin_password : Option String
  cv_file_present : Bool
  deriving DecidableEq

/-- Python truthiness test `not v` for an `os.getenv` result: true when
the variable is unset or set to the empty string. -/
def envBlank : Option String → Bool
  | none => true
  | some s => s.isEmpty

/-- Embedding of `get_linkedin_credentials` (lines 29-35): reads the two
environment variables, raises `ValueError` if either is unset or empty,
otherwise returns the email and the `SecretStr`-wrapped password. -/
def get_linkedin_credentials (env : ProcessEnv) :
    Except String (String × SecretStr) :=
  if envBlank env.linkedin_email || envBlank env.linkedin_password then
    Except.error "linkedin_email 或 linkedin_password 未設定，請檢查環境變數。"
  else
    Except.ok (env.linkedin_email.getD "", ⟨env.linkedin_password.getD ""⟩)

/-- Errors the module body can raise at import time. -/
inductive StartupError where
  | cvFileNotFound : StartupError
  | configValueError (msg : String) : StartupError
  deriving DecidableEq

/-- The instructional preamble built in `main` (lines 168-177), the
adjacent string literals concatenated exactly as in the source. -/
def ground_task : String :=
  "You are a professional job finder. " ++
  "1. Go to www.linkedin.com/login and use the LinkedIn login action with my credentials. " ++
  "2. Read my cv with read_cv. " ++
  "3. Find an internships and apply them and save them to a file. " ++
  "4. need to upload my cv to the application form. " ++
  "5. You can search at this role and apply all of them in the list." ++
  "search at this role:"

/-- The two task strings `main` builds (lines 179-182); one agent is
instantiated and run per entry. -/
def mainTasks : List String :=
  [ground_task ++ "\n" ++ "data analyst intern",
   ground_task ++ "\n" ++ "data scientist intern"]

/-- Embedding of the script's startup path: the module body (lines 39-53
and 152-156: `load_dotenv`, controller and browser construction, and the
CV existence check that raises `FileNotFoundError`) followed by `main`
(lines 159-193), which builds the two tasks and launches one agent per
task.  On success it returns the list of task strings whose agents were
launched.  No step of this sequence calls `get_linkedin_credentials`:
that function is defined at line 29 but never invoked anywhere in the
script. -/
def runScript (env : ProcessEnv) : Except StartupError (List String) :=
  if env.cv_file_present then
    Except.ok mainTasks
  else
    Except.error StartupError.cvFileNotFound

/-! ## Resume reading (`read_cv`, lines 110-117) -/

/-- Embedding of the `read_cv` action (lines 110-117): the PDF is given
as the list of its pages' `extract_text()` results; the action folds
`text += page.extract_text() or ''` over the pages in order and returns
the accumulated text as extracted content with `include_in_memory=True`. -/
def read_cv (pages : List (Option String)) : ActionResult :=
  { extracted_content := some (pages.foldl (fun acc p => acc ++ p.getD "") ""),
    error := none,
    include_in_memory := true }

/-- The specification's description of the output of resume reading: the
ordered concatenation of each page's extracted text, a page yielding no
text contributing the empty string.  Stated independently of `read_cv`
so the two can be compared. -/
def pagesConcat : List (Option String) → String
  | [] => ""
  | p :: rest => p.getD "" ++ pagesConcat rest

/-! ## Job record store (`Job`, `save_jobs`, `read_jobs`, lines 56-77) -/

/-- The `Job` pydantic model (lines 56-62).  `fit_score` is a required
numeric field; `location` and `salary` are optional. -/
structure Job where
  title : String
  link : String
  company : String
  fit_score : Rat
  location : Option String
  salary : Option String
  deriving DecidableEq

/-- How Python's `csv` module renders a possibly-`None` field value:
`None` becomes the empty field. -/
def pyStrOfOpt : Option String → String
  | none => ""
  | some s => s

/-- Whether `csv.writer` (QUOTE_MINIMAL) must quote a field: it contains
the delimiter, the quote character, or a line-terminator character. -/
def csvNeedsQuoting (s : String) : Bool :=
  s.any (fun c => c = ',' || c = '"' || c = '\r' || c = '\n')

/-- Double every quote character, as `csv.writer` does inside a quoted
field. -/
def csvEscape (s : String) : String :=
  s.foldl (fun acc c => if c = '"' then (acc.push '"').push '"' else acc.push c) ""

/-- One serialized CSV field under QUOTE_MINIMAL. -/
def csvField (s : String) : String :=
  if csvNeedsQuoting s then "\"" ++ csvEscape s ++ "\"" else s

/-- One serialized CSV row: the fields joined by commas plus the
writer's default line terminator. -/
def csvRow (fields : List String) : String :=
  String.intercalate "," (fields.map csvField) ++ "\r\n"

/-- The field list `save_jobs` passes to `writer.writerow` (line 69), in
source order: title, company, link, salary, location. -/
def jobFields (job : Job) : List String :=
  [job.title, job.company, job.link, pyStrOfOpt job.salary, pyStrOfOpt job.location]

/-- `open('jobs.csv', 'a')`: appending starts from the current contents,
or from an empty file that is created when none exists. -/
def openAppend : Option String → String
  | none => ""
  | some contents => contents

/-- Embedding of the `save_jobs` action (lines 65-71): open the store in
append mode, write one CSV row of the five fields, return the fixed
confirmation string.  The result is the new store state paired with the
action's return value. -/
def save_jobs (job : Job) (store : Option String) : Option String × String :=
  (some (openAppend store ++ csvRow (jobFields job)), "Saved job to file")

/-- Filesystem errors relevant to `read_jobs`. -/
inductive FileError where
  | fileNotFound : FileError
  deriving DecidableEq

/-- Embedding of the `read_jobs` action (lines 74-77): `open('jobs.csv',
'r')` raises `FileNotFoundError` when the store does not exist,
otherwise the whole contents are returned. -/
def read_jobs (store : Option String) : Except FileError String :=
  match store with
  | none => Except.error FileError.fileNotFound
  | some contents => Except.ok contents

/-! ## Login action (`linkedin_login`, lines 80-108) -/

/-- The awaited browser calls `linkedin_login` performs, each modelled by
its outcome: normal return, or a raised exception. -/
structure LoginBrowser where
  goto_login : Except Exn Unit
  wait_username : Except Exn Unit
  fill_username : String → Except Exn Unit
  wait_password : Except Exn Unit
  fill_password : String → Except Exn Unit
  wait_submit : Except Exn Unit
  click_submit : Except Exn Unit
  wait_for_nav : Except Exn Unit

/-- The body of the `try` block of `linkedin_login` (lines 83-99): the
eight awaited steps in source order; the first exception aborts the
sequence. -/
def loginAttempt (email password : String) (b : LoginBrowser) : Except Exn Unit := do
  b.goto_login
  b.wait_username
  b.fill_username email
  b.wait_password
  b.fill_password password
  b.wait_submit
  b.click_submit
  b.wait_for_nav

/-- Embedding of the `linkedin_login` action (lines 80-108): if every
step returns normally, a success result with the fixed message and
`include_in_memory=True`; if any step raises `e`, an error result whose
message prefixes the fixed text to `str(e)` (memory flag left at its
`false` default). -/
def linkedin_login (email password : String) (b : LoginBrowser) : ActionResult :=
  match loginAttempt email password b with
  | Except.ok _ =>
      { extracted_content := some "Successfully logged in to LinkedIn",
        error := none,
        include_in_memory := true }
  | Except.error e =>
      { extracted_content := none,
        error := some ("Failed to login to LinkedIn: " ++ e.msg),
        include_in_memory := false }

/-! ## Upload action (`upload_cv`, lines 120-149) -/

/-- The DOM node `get_file_upload_element` can return, abstracted to an
identity tag. -/
structure FileUploadDom where
  tag : Nat
  deriving DecidableEq

/-- A DOM element as `upload_cv` uses it: only its
`get_file_upload_element()` result matters. -/
structure DomElement where
  file_upload_child : Option FileUploadDom
  deriving DecidableEq

/-- A located Playwright element handle, modelled by the outcome of
`set_input_files` on it for each path. -/
structure ElementHandle where
  set_input_files : String → Except Exn Unit

/-- The browser-context calls `upload_cv` performs, modelled by their
results. -/
structure UploadBrowser where
  get_dom_element_by_index : Int → Option DomElement
  get_locate_element : FileUploadDom → Option ElementHandle

/-- Embedding of the `upload_cv` action (lines 120-149), parametrised by
the resolved absolute CV path (`str(CV.absolute())`, line 124).  Returns
the `ActionResult` paired with the log records the action emits, in
order: the element lookup, the nested-upload-element lookup, the
element-location step, and finally the guarded `set_input_files` call
whose exception is logged at debug level and replaced by a generic
error. -/
def upload_cv (path : String) (index : Int) (browser : UploadBrowser) :
    ActionResult × List (LogLevel × String) :=
  match browser.get_dom_element_by_index index with
  | none =>
      ({ extracted_content := none,
         error := some ("No element found at index " ++ toString index),
         include_in_memory := false }, [])
  | some dom_el =>
    match dom_el.file_upload_child with
    | none =>
        ({ extracted_content := none,
           error := some ("No file upload element found at index " ++ toString index),
           include_in_memory := false },
         [(LogLevel.info, "No file upload element found at index " ++ toString index)])
    | some file_upload_dom_el =>
      match browser.get_locate_element file_upload_dom_el with
      | none =>
          ({ extracted_content := none,
             error := some ("No file upload element found at index " ++ toString index),
             include_in_memory := false },
           [(LogLevel.info, "No file upload element found at index " ++ toString index)])
      | some file_upload_el =>
        match file_upload_el.set_input_files path with
        | Except.ok _ =>
            ({ extracted_content :=
                 some ("Successfully uploaded file \"" ++ path ++ "\" to index " ++ toString index),
               error := none,
               include_in_memory := false },
             [(LogLevel.info,
               "Successfully uploaded file \"" ++ path ++ "\" to index " ++ toString index)])
        | Except.error e =>
            ({ extracted_content := none,
               error := some ("Failed to upload file to index " ++ toString index),
               include_in_memory := false },
             [(LogLevel.debug, "Error in set_input_files: " ++ e.msg)])

/-! ## Concrete browsers used to instantiate the action theorems -/

/-- A login browser on which every awaited step returns normally. -/
def loginBrowserOk : LoginBrowser :=
  { goto_login := Except.ok (), wait_username := Except.ok (),
    fill_username := fun _ => Except.ok (), wait_password := Except.ok (),
    fill_password := fun _ => Except.ok (), wait_submit := Except.ok (),
    click_submit := Except.ok (), wait_for_nav := Except.ok () }

/-- A login browser whose initial navigation raises. -/
def loginBrowserNetDown : LoginBrowser :=
  { loginBrowserOk with goto_login := Except.error ⟨"net::ERR_CONNECTION_RESET"⟩ }

/-! ## Claims -/

/-- Claim C1: the spec states that if either credential environment
variable is unset or empty at process start, the program fails with a
configuration error before any agent runs.  The code does not do this:
`get_linkedin_credentials` would indeed raise `ValueError` on a blank
variable, but nothing in the module body or `main` ever calls it, so with
both variables unset (and the CV file present) startup succeeds and both
agents are launched.  This theorem evaluates the startup path at that
failing input and evaluates the uncalled credential loader beside it. -/
theorem runScript_ignores_missing_credentials :
    runScript { linkedin_email := none, linkedin_password := none, cv_file_present := true }
      = Except.ok mainTasks
    ∧ mainTasks.length = 2
    ∧ get_linkedin_credentials
        { linkedin_email := none, linkedin_password := none, cv_file_present := true }
      = Except.error "linkedin_email 或 linkedin_password 未設定，請檢查環境變數。" :=
  ⟨rfl, rfl, rfl⟩

/-- Claim C2: for every input PDF, `read_cv` returns the ordered
concatenation of each page's extracted text, a page yielding no
extractable text contributing the empty string; the action reports no
error and sets the memory flag. -/
theorem read_cv_is_ordered_concat (pages : List (Option String)) :
    read_cv pages =
      { extracted_content := some (pagesConcat pages),
        error := none,
        include_in_memory := true } := by
  have h : ∀ (ps : List (Option String)) (acc : String),
      ps.foldl (fun a p => a ++ p.getD "") acc = acc ++ pagesConcat ps := by
    intro ps
    induction ps with
    | nil => intro acc; simp [pagesConcat, String.append_empty]
    | cons p rest ih =>
        intro acc
        simp [pagesConcat, List.foldl_cons, ih, String.append_assoc]
  simp [read_cv, h]

/-- Claim C3: `save_jobs` appends exactly one CSV row holding, in fixed
column order, title, company, link, salary, location; the store is
opened for appending (an absent store behaves as empty and is created);
the action returns the fixed confirmation string. -/
theorem save_jobs_appends_single_row (job : Job) (store : Option String) :
    save_jobs job store =
      (some (openAppend store ++
         csvRow [job.title, job.company, job.link,
                 pyStrOfOpt job.salary, pyStrOfOpt job.location]),
       "Saved job to file") :=
  rfl

/-- Claim C4: after `save_jobs A` then `save_jobs B`, a subsequent
`read_jobs` returns the prior contents followed by A's row and then B's
row — so A's row appears before B's — and each row is the five fields in
fixed column order, comma-delimited, ending in the writer's line
terminator. -/
theorem save_save_read_round_trip (A B : Job) (store : Option String) :
    read_jobs (save_jobs B (save_jobs A store).1).1
      = Except.ok (openAppend store ++ csvRow (jobFields A) ++ csvRow (jobFields B))
    ∧ csvRow (jobFields A)
      = csvField A.title ++ "," ++ csvField A.company ++ "," ++ csvField A.link ++ ","
        ++ csvField (pyStrOfOpt A.salary) ++ "," ++ csvField (pyStrOfOpt A.location) ++ "\r\n"
    ∧ csvRow (jobFields B)
      = csvField B.title ++ "," ++ csvField B.company ++ "," ++ csvField B.link ++ ","
        ++ csvField (pyStrOfOpt B.salary) ++ "," ++ csvField (pyStrOfOpt B.location) ++ "\r\n" :=
  ⟨rfl, rfl, rfl⟩

/-- Claim C5: reading the job store before any append has created the
file fails with a file-not-found condition; content is only ever
returned from an existing store, so there is no graceful empty
fallback. -/
theorem read_jobs_requires_existing_store :
    read_jobs none = Except.error FileError.fileNotFound
    ∧ ∀ s : String, read_jobs (some s) = Except.ok s :=
  ⟨rfl, fun _ => rfl⟩

/-- Claim C6: if any step of `linkedin_login` raises, the action returns
an error result carrying the exception text in a non-empty message with
the memory flag false and no content; if every step succeeds, it returns
a success result with content set and the memory flag true. -/
theorem linkedin_login_result_paths (email password : String) (b : LoginBrowser) :
    (∀ e : Exn, loginAttempt email password b = Except.error e →
       linkedin_login email password b =
         { extracted_content := none,
           error := some ("Failed to login to LinkedIn: " ++ e.msg),
           include_in_memory := false }
       ∧ 0 < ("Failed to login to LinkedIn: " ++ e.msg).length)
    ∧ (loginAttempt email password b = Except.ok () →
       linkedin_login email password b =
         { extracted_content := some "Successfully logged in to LinkedIn",
           error := none,
           include_in_memory := true }) := by
  constructor
  · intro e he
    constructor
    · simp [linkedin_login, he]
    · have h1 : ("Failed to login to LinkedIn: ").length = 29 := rfl
      rw [String.length_append]
      omega
  · intro h
    simp [linkedin_login, h]

/-- Witness for `linkedin_login_result_paths`: both branches evaluated
on concrete browsers — a failing initial navigation and an all-success
run. -/
theorem linkedin_login_result_paths_witness :
    linkedin_login "user@example.com" "pw" loginBrowserNetDown =
      { extracted_content := none,
        error := some "Failed to login to LinkedIn: net::ERR_CONNECTION_RESET",
        include_in_memory := false }
    ∧ linkedin_login "user@example.com" "pw" loginBrowserOk =
      { extracted_content := some "Successfully logged in to LinkedIn",
        error := none,
        include_in_memory := true } := by
  refine ⟨?_, ?_⟩
  · exact ((linkedin_login_result_paths "user@example.com" "pw" loginBrowserNetDown).1
      ⟨"net::ERR_CONNECTION_RESET"⟩ rfl).1
  · exact (linkedin_login_result_paths "user@example.com" "pw" loginBrowserOk).2 rfl

/-- An upload browser where the element resolves, a nested upload
element exists and locates, but `set_input_files` raises. -/
def uploadBrowserBoom : UploadBrowser :=
  { get_dom_element_by_index := fun _ => some { file_upload_child := some ⟨0⟩ },
    get_locate_element := fun _ =>
      some { set_input_files := fun _ => Except.error ⟨"boom"⟩ } }

/-- An upload browser where the element resolves but has no nested file
upload element. -/
def uploadBrowserNoChild : UploadBrowser :=
  { get_dom_element_by_index := fun _ => some { file_upload_child := none },
    get_locate_element := fun _ => none }

/-- An upload browser where the element resolves with a nested file
upload element, but the concrete upload control fails to locate. -/
def uploadBrowserNoLocate : UploadBrowser :=
  { get_dom_element_by_index := fun _ => some { file_upload_child := some ⟨0⟩ },
    get_locate_element := fun _ => none }

/-- Claim C7, counterexample: the claim lists exactly three possible
outcomes of `upload_cv` (no-element error, no-upload-control error,
success with path and index).  On a browser where the element resolves,
has a nested upload control, locates, and `set_input_files` then raises,
the action returns a fourth outcome: a generic upload-failure error that
is none of the three — its message differs from both listed error
messages and no success content is produced. -/
theorem upload_cv_has_fourth_outcome :
    (upload_cv "/home/user/Hsu_Tse_Chun_s_CV_DS.pdf" 0 uploadBrowserBoom).1
      = { extracted_content := none,
          error := some "Failed to upload file to index 0",
          include_in_memory := false }
    ∧ (uploadBrowserBoom.get_dom_element_by_index 0).isSome = true
    ∧ ((uploadBrowserBoom.get_dom_element_by_index 0).map
         (fun d => d.file_upload_child.isSome)) = some true
    ∧ ("Failed to upload file to index 0" == "No element found at index 0") = false
    ∧ ("Failed to upload file to index 0" == "No file upload element found at index 0") = false := by
  refine ⟨rfl, rfl, rfl, by decide, by decide⟩

/-- Claim C7, amended: for every index, `upload_cv` returns exactly one
of five outcomes — the no-element error naming the index when no element
resolves; the no-file-upload-element error naming the index when the
resolved element has no nested upload control, and the same error again
when the nested control fails to locate to a concrete element; the
generic upload-failure error naming the index when file assignment
raises; and, on successful file assignment, a success message containing
both the resolved absolute path and the index. -/
theorem upload_cv_outcomes (path : String) (index : Int) (b : UploadBrowser) :
    (b.get_dom_element_by_index index = none ∧
       (upload_cv path index b).1 =
         { extracted_content := none,
           error := some ("No element found at index " ++ toString index),
           include_in_memory := false })
  ∨ (∃ d, b.get_dom_element_by_index index = some d ∧ d.file_upload_child = none ∧
       (upload_cv path index b).1 =
         { extracted_content := none,
           error := some ("No file upload element found at index " ++ toString index),
           include_in_memory := false })
  ∨ (∃ d f, b.get_dom_element_by_index index = some d ∧ d.file_upload_child = some f ∧
       b.get_locate_element f = none ∧
       (upload_cv path index b).1 =
         { extracted_content := none,
           error := some ("No file upload element found at index " ++ toString index),
           include_in_memory := false })
  ∨ (∃ d f el e, b.get_dom_element_by_index index = some d ∧ d.file_upload_child = some f ∧
       b.get_locate_element f = some el ∧ el.set_input_files path = Except.error e ∧
       (upload_cv path index b).1 =
         { extracted_content := none,
           error := some ("Failed to upload file to index " ++ toString index),
           include_in_memory := false })
  ∨ (∃ d f el, b.get_dom_element_by_index index = some d ∧ d.file_upload_child = some f ∧
       b.get_locate_element f = some el ∧ el.set_input_files path = Except.ok () ∧
       (upload_cv path index b).1 =
         { extracted_content :=
             some ("Successfully uploaded file \"" ++ path ++ "\" to index " ++ toString index),
           error := none,
           include_in_memory := false }) := by
  cases hd : b.get_dom_element_by_index index with
  | none => exact Or.inl ⟨rfl, by simp [upload_cv, hd]⟩
  | some d =>
    cases hf : d.file_upload_child with
    | none => exact Or.inr (Or.inl ⟨d, rfl, hf, by simp [upload_cv, hd, hf]⟩)
    | some f =>
      cases hl : b.get_locate_element f with
      | none =>
          exact Or.inr (Or.inr (Or.inl ⟨d, f, rfl, hf, hl, by simp [upload_cv, hd, hf, hl]⟩))
      | some el =>
        cases hs : el.set_input_files path with
        | error e =>
            exact Or.inr (Or.inr (Or.inr (Or.inl
              ⟨d, f, el, e, rfl, hf, hl, hs, by simp [upload_cv, hd, hf, hl, hs]⟩)))
        | ok u =>
            cases u
            exact Or.inr (Or.inr (Or.inr (Or.inr
              ⟨d, f, el, rfl, hf, hl, hs, by simp [upload_cv, hd, hf, hl, hs]⟩)))

/-- Claim C8: an exception raised by `set_input_files` is caught;
`upload_cv` returns the generic upload-failure error naming the index —
a message that does not depend on the exception — while the original
exception detail appears only in the single debug-level log record. -/
theorem upload_cv_exception_generic_error (path : String) (index : Int)
    (b : UploadBrowser) (d : DomElement) (f : FileUploadDom) (el : ElementHandle) (e : Exn)
    (hd : b.get_dom_element_by_index index = some d)
    (hf : d.file_upload_child = some f)
    (hl : b.get_locate_element f = some el)
    (hs : el.set_input_files path = Except.error e) :
    (upload_cv path index b).1 =
      { extracted_content := none,
        error := some ("Failed to upload file to index " ++ toString index),
        include_in_memory := false }
    ∧ (upload_cv path index b).2 =
      [(LogLevel.debug, "Error in set_input_files: " ++ e.msg)] := by
  simp [upload_cv, hd, hf, hl, hs]

/-- Witness for `upload_cv_exception_generic_error`: evaluated on the
concrete raising browser; the returned error omits the exception text
"boom", which appears only in the debug log. -/
theorem upload_cv_exception_generic_error_witness :
    (upload_cv "/home/user/Hsu_Tse_Chun_s_CV_DS.pdf" 0 uploadBrowserBoom).1 =
      { extracted_content := none,
        error := some "Failed to upload file to index 0",
        include_in_memory := false }
    ∧ (upload_cv "/home/user/Hsu_Tse_Chun_s_CV_DS.pdf" 0 uploadBrowserBoom).2 =
      [(LogLevel.debug, "Error in set_input_files: boom")] := by
  exact upload_cv_exception_generic_error "/home/user/Hsu_Tse_Chun_s_CV_DS.pdf" 0
    uploadBrowserBoom { file_upload_child := some ⟨0⟩ } ⟨0⟩
    { set_input_files := fun _ => Except.error ⟨"boom"⟩ } ⟨"boom"⟩ rfl rfl rfl rfl

/-- Claim C9: the row `save_jobs` persists holds exactly the five fields
title, company, link, salary, location and never `fit_score`: changing a
job's `fit_score` — a required field of the `Job` model — changes
neither the store contents written nor the returned confirmation, so the
score accepted at the action's interface is silently discarded. -/
theorem save_jobs_discards_fit_score (job : Job) (store : Option String) (x : Rat) :
    jobFields job =
      [job.title, job.company, job.link, pyStrOfOpt job.salary, pyStrOfOpt job.location]
    ∧ (jobFields job).length = 5
    ∧ save_jobs { job with fit_score := x } store = save_jobs job store :=
  ⟨rfl, rfl, rfl⟩

/-- Claim C10: the two failure points after the element resolves — the
resolved DOM node having no nested file-upload element, and the concrete
upload control failing to locate — return identical error messages for
the same index, so the caller cannot tell from the result which one
occurred. -/
theorem upload_cv_two_failures_same_error (path : String) (index : Int)
    (b1 b2 : UploadBrowser) (d1 d2 : DomElement) (f : FileUploadDom)
    (h1 : b1.get_dom_element_by_index index = some d1)
    (h2 : d1.file_upload_child = none)
    (h3 : b2.get_dom_element_by_index index = some d2)
    (h4 : d2.file_upload_child = some f)
    (h5 : b2.get_locate_element f = none) :
    (upload_cv path index b1).1.error
      = some ("No file upload element found at index " ++ toString index)
    ∧ (upload_cv path index b2).1.error
      = some ("No file upload element found at index " ++ toString index)
    ∧ (upload_cv path index b1).1.error = (upload_cv path index b2).1.error := by
  have e1 : (upload_cv path index b1).1.error
      = some ("No file upload element found at index " ++ toString index) := by
    simp [upload_cv, h1, h2]
  have e2 : (upload_cv path index b2).1.error
      = some ("No file upload element found at index " ++ toString index) := by
    simp [upload_cv, h3, h4, h5]
  exact ⟨e1, e2, e1.trans e2.symm⟩

/-- Witness for `upload_cv_two_failures_same_error`: the two concrete
browsers exercising each failure point return the same error message at
index 3. -/
theorem upload_cv_two_failures_same_error_witness :
    (upload_cv "/cv.pdf" 3 uploadBrowserNoChild).1.error
      = some "No file upload element found at index 3"
    ∧ (upload_cv "/cv.pdf" 3 uploadBrowserNoLocate).1.error
      = some "No file upload element found at index 3"
    ∧ (upload_cv "/cv.pdf" 3 uploadBrowserNoChild).1.error
      = (upload_cv "/cv.pdf" 3 uploadBrowserNoLocate).1.error := by
  exact upload_cv_two_failures_same_error "/cv.pdf" 3
    uploadBrowserNoChild uploadBrowserNoLocate
    { file_upload_child := none } { file_upload_child := some ⟨0⟩ } ⟨0⟩
    rfl rfl rfl rfl rfl

end LinkedInEasyApply
